import Mathlib

/-
Verification of the idevice protocol layer against its specification.

The Rust services under src/idevice/src/services are embedded shallowly:
plist values become the inductive `PValue`, XPC objects become `XPCObject`,
dictionaries become ordered association lists with first-match lookup
(plist dictionaries keep keys unique), and each request/response routine
becomes a pure Lean function over the reply values it consumes, with the
side effects that matter to the claims (sends, sleeps, TLS upgrades,
progress callbacks) recorded in explicit event traces.
-/

namespace Idevice

/-- Shallow embedding of `plist::Value` (the variants these services use).
Integers model `plist::Integer`, which stores any value representable as
an i64 or a u64; we carry a mathematical `Int` and apply the crate's
range checks in `intAsSigned` / `intAsUnsigned`. -/
inductive PValue where
  | boolean (b : Bool)
  | integer (n : Int)
  | string (s : String)
  | data (bytes : List Nat)
  | array (xs : List PValue)
  | dict (entries : List (String × PValue))

/-- A plist dictionary: ordered key/value pairs with unique keys. -/
abbrev PDict := List (String × PValue)

/-- Lookup in a plist dictionary (`plist::Dictionary::get`): first match. -/
def pLookup : PDict → String → Option PValue
  | [], _ => none
  | (k, v) :: rest, key => if k = key then some v else pLookup rest key

/-- Insert into a plist dictionary (`plist::Dictionary::insert`):
replaces the value in place when the key exists, appends otherwise. -/
def pInsert : PDict → String → PValue → PDict
  | [], key, v => [(key, v)]
  | (k, v0) :: rest, key, v =>
      if k = key then (key, v) :: rest else (k, v0) :: pInsert rest key v

/-- Range check of `plist::Integer::as_signed` (value fits an i64). -/
def intAsSigned (v : Int) : Option Int :=
  if -(2 ^ 63) ≤ v ∧ v < 2 ^ 63 then some v else none

/-- Range check of `plist::Integer::as_unsigned` (value fits a u64). -/
def intAsUnsigned (v : Int) : Option Nat :=
  if 0 ≤ v ∧ v < 2 ^ 64 then some v.toNat else none

/-- Embedding of `plist::Value::as_string` / `into_string`. -/
def PValue.asString : PValue → Option String
  | .string s => some s
  | _ => none

/-- Embedding of `plist::Value::as_boolean`. -/
def PValue.asBoolean : PValue → Option Bool
  | .boolean b => some b
  | _ => none

/-- Embedding of `plist::Value::as_data`. -/
def PValue.asData : PValue → Option (List Nat)
  | .data bytes => some bytes
  | _ => none

/-- Embedding of `plist::Value::into_array`. -/
def PValue.intoArray : PValue → Option (List PValue)
  | .array xs => some xs
  | _ => none

/-- Embedding of `plist::Value::as_unsigned_integer`. -/
def PValue.asUnsignedInteger : PValue → Option Nat
  | .integer n => intAsUnsigned n
  | _ => none

/-- The `IdeviceError` variants reached by the embedded services.
`Socket` stands for the transport error raised when a read is attempted
after the modelled message stream is exhausted. -/
inductive IdeviceError where
  | UnexpectedResponse
  | MisagentFailure
  | InstallationProxyOperationFailed (msg : String)
  | NoEstablishedConnection
  | PairingDialogResponsePending
  | Socket
  deriving DecidableEq

/-! ## XPC objects and the core-device version encoder
(src/idevice/src/services/core_device/mod.rs) -/

/-- Shallow embedding of `xpc::XPCObject` (the variants `invoke` builds).
`plistValue` embeds the opaque `From<plist::Value>` conversion used for
the `CoreDevice.input` field; it is injective, which is all the claims
about envelope equality need. -/
inductive XPCObject where
  | int64 (n : Int)
  | uint64 (n : Nat)
  | string (s : String)
  | array (xs : List XPCObject)
  | dictionary (entries : List (String × XPCObject))
  | plistValue (v : PValue)

/-- An XPC dictionary: ordered key/value pairs with unique keys. -/
abbrev XDict := List (String × XPCObject)

/-- Lookup in an XPC dictionary: first match. -/
def xLookup : XDict → String → Option XPCObject
  | [], _ => none
  | (k, v) :: rest, key => if k = key then some v else xLookup rest key

/-- Splitting of a character list on a separator, keeping empty pieces:
the character-level semantics of Rust `str::split(sep)`. -/
def splitOnChar (sep : Char) : List Char → List (List Char)
  | [] => [[]]
  | c :: rest =>
      let r := splitOnChar sep rest
      if c = sep then [] :: r
      else
        match r with
        | h :: t => (c :: h) :: t
        | [] => [[c]]

/-- Embedding of Rust `str::parse::<u64>()` on a piece of the split:
an optional leading plus sign, then one or more ASCII digits, value
below 2 ^ 64; anything else fails. -/
def parseU64 (s : List Char) : Option Nat :=
  let digits := if s.head? = some '+' then s.tail else s
  if digits = [] then none
  else if digits.all (fun c => c.isDigit) then
    let v := digits.foldl (fun acc c => acc * 10 + (c.toNat - 48)) 0
    if v < 2 ^ 64 then some v else none
  else none

/-- The version constant `CORE_SERVICE_VERSION` of core_device/mod.rs. -/
def CORE_SERVICE_VERSION : String := "443.18"

/-- Embedding of `create_xpc_version_from_string`: split the version on
a dot, push each component that parses as a u64, then build the three
fields in insertion order. -/
def create_xpc_version_from_string (version : String) : XDict :=
  let collected_version := (splitOnChar '.' version.toList).foldl
    (fun acc x =>
      match parseU64 x with
      | some v => acc ++ [XPCObject.uint64 v]
      | none => acc) []
  [("originalComponentsCount", XPCObject.int64 collected_version.length),
   ("components", XPCObject.array collected_version),
   ("stringValue", XPCObject.string version)]

/-- Specification-side view of the encoder: the successfully parsed
components of a version string, in order. -/
def parsedComponents (version : String) : List Nat :=
  (splitOnChar '.' version.toList).filterMap parseU64

/-! ## The invoke envelope (CoreDeviceServiceClient::invoke)

The two `uuid::Uuid::new_v4()` draws of one `invoke` call are modelled
by an explicit source `uuids : Nat → String` of random identifiers and
an index `k` of the next undrawn value; the body of `invoke` draws the
device identifier first (index `k`) and the invocation identifier
second (index `k + 1`). Distinct draws of a v4 UUID source are
pairwise distinct, which is expressed as injectivity of `uuids`. -/

/-- Embedding of the envelope construction in
`CoreDeviceServiceClient::invoke`: the seven `CoreDevice.*` fields in
insertion order, with `input.unwrap_or_default()` for the input. -/
def buildInvokeRequest (uuids : Nat → String) (k : Nat)
    (feature : String) (input : Option PDict) : XDict :=
  [("CoreDevice.CoreDeviceDDIProtocolVersion", XPCObject.int64 0),
   ("CoreDevice.action", XPCObject.dictionary []),
   ("CoreDevice.coreDeviceVersion",
      XPCObject.dictionary (create_xpc_version_from_string CORE_SERVICE_VERSION)),
   ("CoreDevice.deviceIdentifier", XPCObject.string (uuids k)),
   ("CoreDevice.featureIdentifier", XPCObject.string feature),
   ("CoreDevice.input", XPCObject.plistValue (PValue.dict (input.getD []))),
   ("CoreDevice.invocationIdentifier", XPCObject.string (uuids (k + 1)))]

/-- The envelope sent by the i-th `invoke` call of a client session:
call i draws the uuid-source values at indices 2i and 2i + 1. -/
def invokeEnvelope (uuids : Nat → String) (feature : String)
    (input : Option PDict) (i : Nat) : XDict :=
  buildInvokeRequest uuids (2 * i) feature input

/-! ## Lockdown service (src/idevice/src/services/lockdown.rs) -/

/-- The ssl flag computed by `LockdownClient::start_service`: the
boolean `EnableServiceSSL` field, defaulting to false for anything
else (absent over USB). -/
def sslFlag (response : PDict) : Bool :=
  match pLookup response "EnableServiceSSL" with
  | some (.boolean b) => b
  | _ => false

/-- Reply handling of `LockdownClient::start_service`: a `Port` field
that is an integer passing `as_unsigned` succeeds, with the Rust
`port as u16` cast truncating to the low 16 bits; any other shape is
an `UnexpectedResponse`. -/
def start_service_decode (response : PDict) :
    Except IdeviceError (Nat × Bool) :=
  let ssl := sslFlag response
  match pLookup response "Port" with
  | some (.integer port) =>
      match intAsUnsigned port with
      | some p => .ok (p % 2 ^ 16, ssl)
      | none => .error .UnexpectedResponse
  | _ => .error .UnexpectedResponse

/-- The pairing-record identity used by `start_session` (the fields of
`pairing_file::PairingFile` that the lockdown requests read). -/
structure PairingIdentity where
  host_id : String
  system_buid : String

/-- Observable actions of a lockdown client call. -/
inductive LockdownEvent where
  | sentPlist (req : PDict)
  | tlsUpgrade (pf : PairingIdentity)

/-- Embedding of `LockdownClient::start_session`: build and send the
StartSession request, require the reply's `EnableSessionSSL` to be
boolean true, and only then invoke the in-place TLS upgrade
(`Idevice::start_session`, recorded as a `tlsUpgrade` event). -/
def lockdown_start_session (hasSocket : Bool) (label : String)
    (pf : PairingIdentity) (response : PDict) :
    List LockdownEvent × Except IdeviceError Unit :=
  if hasSocket then
    let req : PDict :=
      [("Label", .string label),
       ("Request", .string "StartSession"),
       ("HostID", .string pf.host_id),
       ("SystemBUID", .string pf.system_buid)]
    match pLookup response "EnableSessionSSL" with
    | some (.boolean true) => ([.sentPlist req, .tlsUpgrade pf], .ok ())
    | some (.boolean false) => ([.sentPlist req], .error .UnexpectedResponse)
    | _ => ([.sentPlist req], .error .UnexpectedResponse)
  else ([], .error .NoEstablishedConnection)

/-! ## The pairing retry loop (LockdownClient::pair)

The loop body sends the request built once before the loop, then
matches the read result: a successful reply completes the record, a
`PairingDialogResponsePending` error sleeps one second and retries,
and any other error aborts. Reads are modelled by a finite list of
read results; `none` means the list was exhausted while the loop still
wanted a reply (the real loop would block on the transport). -/

/-- Outcome of one `read_plist` call inside the pair loop. -/
inductive PairReadResult where
  | ok (reply : PDict)
  | err (e : IdeviceError)

/-- Observable actions of the pair loop: each iteration sends the
request, and a pending reply sleeps (duration in seconds). -/
inductive PairEvent where
  | sent (req : PDict)
  | slept (seconds : Nat)

/-- The certificates produced by the external certificate authority
(`crate::ca::generate_certificates`). -/
structure CaGenerated where
  dev_cert : List Nat
  host_cert : List Nat
  private_key : List Nat

/-- The pairing record assembled by `LockdownClient::pair` before the
retry loop (fields in insertion order). -/
def pairRecordBase (pub_key : List Nat) (ca : CaGenerated)
    (host_id system_buid : String) (wifi_mac : String) : PDict :=
  [("DevicePublicKey", .data pub_key),
   ("DeviceCertificate", .data ca.dev_cert),
   ("HostCertificate", .data ca.host_cert),
   ("HostID", .string host_id),
   ("RootCertificate", .data ca.host_cert),
   ("RootPrivateKey", .data ca.private_key),
   ("WiFiMACAddress", .string wifi_mac),
   ("SystemBUID", .string system_buid)]

/-- The Pair request assembled by `LockdownClient::pair` around the
pairing record. -/
def pairRequest (label : String) (record : PDict) : PDict :=
  [("Label", .string label),
   ("Request", .string "Pair"),
   ("PairRecord", .dict record),
   ("ProtocolVersion", .string "2"),
   ("PairingOptions", .dict [("ExtendedPairingErrors", .boolean true)])]

/-- Embedding of the retry loop of `LockdownClient::pair`. On success
the loop attaches `HostPrivateKey` (the generated private key) and,
when the reply carries a data-typed `EscrowBag`, that bag, and returns
the completed record (`PairingFile::from_value`, which lives outside
the embedded sources, is taken as preserving the assembled record). -/
def pairLoop (req : PDict) (record : PDict) (private_key : List Nat) :
    List PairReadResult → Option (List PairEvent × Except IdeviceError PDict)
  | [] => none
  | .ok escrow :: _ =>
      let record := pInsert record "HostPrivateKey" (.data private_key)
      let record := match (pLookup escrow "EscrowBag").bind PValue.asData with
        | some bytes => pInsert record "EscrowBag" (.data bytes)
        | none => record
      some ([.sent req], .ok record)
  | .err .PairingDialogResponsePending :: rest =>
      match pairLoop req record private_key rest with
      | some (evs, r) => some (.sent req :: .slept 1 :: evs, r)
      | none => none
  | .err e :: _ => some ([.sent req], .error e)

/-! ## Misagent service (src/idevice/src/services/misagent.rs) -/

/-- Status handling of `MisagentRsdClient::install`: an integer
`Status` read through `as_signed`, success exactly at 0, other signed
values are a `MisagentFailure`; everything else is an
`UnexpectedResponse`. -/
def misagent_rsd_install_decode (res : PDict) : Except IdeviceError Unit :=
  match pLookup res "Status" with
  | some (.integer status) =>
      match intAsSigned status with
      | some s => if s = 0 then .ok () else .error .MisagentFailure
      | none => .error .UnexpectedResponse
  | _ => .error .UnexpectedResponse

/-- Status handling of `MisagentRsdClient::remove`: an integer
`Status` read through `as_unsigned`, success exactly at 1, other
unsigned values are a `MisagentFailure`; everything else is an
`UnexpectedResponse`. -/
def misagent_rsd_remove_decode (res : PDict) : Except IdeviceError Unit :=
  match pLookup res "Status" with
  | some (.integer status) =>
      match intAsUnsigned status with
      | some s => if s = 1 then .ok () else .error .MisagentFailure
      | none => .error .UnexpectedResponse
  | _ => .error .UnexpectedResponse

/-- Status handling of `MisagentClient::install` (implicit-channel
variant): an integer `Status` read through `as_unsigned`, success
exactly at 1. -/
def misagent_install_decode (res : PDict) : Except IdeviceError Unit :=
  match pLookup res "Status" with
  | some (.integer status) =>
      match intAsUnsigned status with
      | some s => if s = 1 then .ok () else .error .MisagentFailure
      | none => .error .UnexpectedResponse
  | _ => .error .UnexpectedResponse

/-- Status handling of `MisagentClient::remove` (implicit-channel
variant): identical to the implicit-channel install. -/
def misagent_remove_decode (res : PDict) : Except IdeviceError Unit :=
  match pLookup res "Status" with
  | some (.integer status) =>
      match intAsUnsigned status with
      | some s => if s = 1 then .ok () else .error .MisagentFailure
      | none => .error .UnexpectedResponse
  | _ => .error .UnexpectedResponse

/-- The checkin request sent by `MisagentRsdClient::from_stream`
(fields in insertion order). -/
def misagentRsdCheckinRequest : PDict :=
  [("Label", .string "misagent-rsd"),
   ("ProtocolVersion", .string "2"),
   ("Request", .string "RSDCheckin")]

/-- Reply validation of `MisagentRsdClient::from_stream`: the first
framed reply must be a dictionary whose `Request` string is
"RSDCheckin", the second a dictionary whose `Request` string is
"StartService"; anything else is an `UnexpectedResponse`. -/
def misagent_rsd_from_stream (reply1 reply2 : PValue) :
    Except IdeviceError Unit :=
  match reply1 with
  | .dict d1 =>
      match (pLookup d1 "Request").bind PValue.asString with
      | some r1 =>
          if r1 = "RSDCheckin" then
            match reply2 with
            | .dict d2 =>
                match (pLookup d2 "Request").bind PValue.asString with
                | some r2 =>
                    if r2 = "StartService" then .ok ()
                    else .error .UnexpectedResponse
                | none => .error .UnexpectedResponse
            | _ => .error .UnexpectedResponse
          else .error .UnexpectedResponse
      | none => .error .UnexpectedResponse
  | _ => .error .UnexpectedResponse

/-! ## Installation proxy (src/idevice/src/services/installation_proxy.rs) -/

/-- The status label derived by `watch_completion`: `CurrentOperation`,
else `StatusDescription`, else `Phase`, else the literal default. -/
def statusLabel (res : PDict) : String :=
  match (pLookup res "CurrentOperation").bind PValue.asString with
  | some current_operation => current_operation
  | none =>
      match (pLookup res "StatusDescription").bind PValue.asString with
      | some status_description => status_description
      | none =>
          match (pLookup res "Phase").bind PValue.asString with
          | some phase => phase
          | none => "Installing"

/-- Observable actions of `watch_completion`: the stdout progress line
(label and percent) and the caller-supplied callback invocation
(percent and the cloned caller state of type σ). -/
inductive WatchEvent (σ : Type) where
  | printed (label : String) (percent : Nat)
  | callbackCall (percent : Nat) (state : σ)
  deriving DecidableEq

/-- The observable actions of one non-error `watch_completion`
iteration: a `PercentComplete` passing `as_unsigned_integer` prints
the status line and invokes the callback once with the percent and
the caller state; otherwise nothing happens. -/
def watchEvents {σ : Type} (res : PDict) (state : σ) : List (WatchEvent σ) :=
  match (pLookup res "PercentComplete").bind PValue.asUnsignedInteger with
  | some c => [.printed (statusLabel res) c, .callbackCall c state]
  | none => []

/-- Embedding of `InstallationProxyClient::watch_completion` over a
finite stream of reply dictionaries: a string `ErrorDescription`
aborts with `InstallationProxyOperationFailed`; otherwise the
iteration emits `watchEvents`, and a string `Status` equal to
"Complete" returns success; otherwise the loop reads on, and an
exhausted stream is a transport error. -/
def watch_completion {σ : Type} (state : σ) :
    List PDict → List (WatchEvent σ) × Except IdeviceError Unit
  | [] => ([], .error .Socket)
  | res :: rest =>
      match (pLookup res "ErrorDescription").bind PValue.asString with
      | some e => ([], .error (.InstallationProxyOperationFailed e))
      | none =>
          let evs := watchEvents res state
          match (pLookup res "Status").bind PValue.asString with
          | some c =>
              if c = "Complete" then (evs, .ok ())
              else
                (evs ++ (watch_completion state rest).1,
                 (watch_completion state rest).2)
          | none =>
              (evs ++ (watch_completion state rest).1,
               (watch_completion state rest).2)

/-- The `CurrentList` array of a browse reply, through `into_array`. -/
def currentListOf (res : PDict) : Option (List PValue) :=
  (pLookup res "CurrentList").bind PValue.intoArray

/-- The string `Status` field of a reply. -/
def statusOf (res : PDict) : Option String :=
  (pLookup res "Status").bind PValue.asString

/-- Embedding of the receive loop of `InstallationProxyClient::browse`
over a finite stream of reply dictionaries, carrying the accumulated
values: a reply with a `CurrentList` array appends its elements, then
a `Status` of "Complete" ends the loop; a reply without a
`CurrentList` array ends the loop early with the values accumulated so
far; an exhausted stream is a transport error. -/
def browseLoop (acc : List PValue) :
    List PDict → Except IdeviceError (List PValue)
  | [] => .error .Socket
  | res :: rest =>
      match currentListOf res with
      | some list =>
          let acc := acc ++ list
          match statusOf res with
          | some status =>
              if status = "Complete" then .ok acc else browseLoop acc rest
          | none => browseLoop acc rest
      | none => .ok acc

/-- A deterministic identifier source with pairwise-distinct values,
standing in for a v4 UUID generator in concrete instantiations. -/
def natUuid (n : Nat) : String := String.mk (List.replicate n 'a')

/-! ## Helper lemmas -/

theorem pLookup_pInsert_self (d : PDict) (key : String) (v : PValue) :
    pLookup (pInsert d key v) key = some v := by
  induction d with
  | nil => simp [pInsert, pLookup]
  | cons kv rest ih =>
      obtain ⟨k, v0⟩ := kv
      by_cases h : k = key <;> simp [pInsert, pLookup, h, ih]

theorem pLookup_pInsert_ne (d : PDict) (key key2 : String) (v : PValue)
    (h : key ≠ key2) :
    pLookup (pInsert d key v) key2 = pLookup d key2 := by
  induction d with
  | nil => simp [pInsert, pLookup, h]
  | cons kv rest ih =>
      obtain ⟨k, v0⟩ := kv
      by_cases hk : k = key
      · subst hk
        simp [pInsert, pLookup, h]
      · simp [pInsert, pLookup, hk, ih]

theorem foldl_collect_eq_filterMap (pieces : List (List Char))
    (acc : List XPCObject) :
    pieces.foldl (fun acc x =>
      match parseU64 x with
      | some v => acc ++ [XPCObject.uint64 v]
      | none => acc) acc
      = acc ++ (pieces.filterMap parseU64).map XPCObject.uint64 := by
  induction pieces generalizing acc with
  | nil => simp
  | cons p rest ih =>
      cases h : parseU64 p <;>
        simp [List.foldl_cons, List.filterMap_cons, h, ih]

theorem natUuid_injective : Function.Injective natUuid := by
  intro a b h
  have hd : List.replicate a 'a' = List.replicate b 'a' :=
    congrArg String.data h
  simpa using congrArg List.length hd

theorem invokeEnvelope_deviceIdentifier (uuids : Nat → String)
    (feature : String) (input : Option PDict) (i : Nat) :
    xLookup (invokeEnvelope uuids feature input i)
      "CoreDevice.deviceIdentifier" = some (.string (uuids (2 * i))) := rfl

theorem invokeEnvelope_invocationIdentifier (uuids : Nat → String)
    (feature : String) (input : Option PDict) (i : Nat) :
    xLookup (invokeEnvelope uuids feature input i)
      "CoreDevice.invocationIdentifier"
      = some (.string (uuids (2 * i + 1))) := rfl

/-! ## Claim theorems -/

/-- C7: the core-version encoder splits the version string on a dot,
parses each component as an unsigned integer, silently discards
components that fail to parse, stores the parsed components in order,
reports the component count as the number of successfully parsed
components only, and keeps the original string verbatim; in particular
"443.18" gives components [443, 18] with count 2, and "1.a.2" gives
[1, 2] with count 2. -/
theorem version_encoder_parses_and_discards (version : String) :
    xLookup (create_xpc_version_from_string version) "components"
      = some (.array ((parsedComponents version).map XPCObject.uint64))
    ∧ xLookup (create_xpc_version_from_string version)
        "originalComponentsCount"
      = some (.int64 ((parsedComponents version).length))
    ∧ xLookup (create_xpc_version_from_string version) "stringValue"
      = some (.string version)
    ∧ parsedComponents "443.18" = [443, 18]
    ∧ parsedComponents "1.a.2" = [1, 2] := by
  refine ⟨?_, ?_, ?_, by decide, by decide⟩ <;>
    simp [create_xpc_version_from_string, xLookup, parsedComponents,
      foldl_collect_eq_filterMap]

/-- C10: invoke with no input builds exactly the same envelope as
invoke with an explicit empty dictionary input (the uuid draws held
equal), and the CoreDevice.input field is always present, defaulting
to the empty dictionary. -/
theorem invoke_input_defaults_to_empty (uuids : Nat → String) (k : Nat)
    (feature : String) (input : Option PDict) :
    buildInvokeRequest uuids k feature none
      = buildInvokeRequest uuids k feature (some [])
    ∧ xLookup (buildInvokeRequest uuids k feature input) "CoreDevice.input"
      = some (.plistValue (.dict (input.getD []))) :=
  ⟨rfl, rfl⟩

/-- C1 (amended): with a uuid source whose draws are pairwise distinct,
the invocation identifiers of any two distinct invoke calls on one
client differ (never repeated), and the device identifiers of any two
distinct calls differ as well: the code draws a fresh device
identifier on every call instead of reusing one per client session. -/
theorem invoke_identifiers_fresh_per_call (uuids : Nat → String)
    (hinj : Function.Injective uuids) (feature1 feature2 : String)
    (input1 input2 : Option PDict) (i j : Nat) (hij : i ≠ j) :
    xLookup (invokeEnvelope uuids feature1 input1 i)
        "CoreDevice.invocationIdentifier"
      ≠ xLookup (invokeEnvelope uuids feature2 input2 j)
        "CoreDevice.invocationIdentifier"
    ∧ xLookup (invokeEnvelope uuids feature1 input1 i)
        "CoreDevice.deviceIdentifier"
      ≠ xLookup (invokeEnvelope uuids feature2 input2 j)
        "CoreDevice.deviceIdentifier" := by
  rw [invokeEnvelope_invocationIdentifier, invokeEnvelope_invocationIdentifier,
    invokeEnvelope_deviceIdentifier, invokeEnvelope_deviceIdentifier]
  refine ⟨fun h => hij ?_, fun h => hij ?_⟩
  · have := hinj (by simpa using h)
    omega
  · have := hinj (by simpa using h)
    omega

/-- C1 witness: concrete instance of the amended claim at an injective
identifier source and calls 0 and 1. -/
theorem invoke_identifiers_fresh_per_call_witness :
    xLookup (invokeEnvelope natUuid "feature" none 0)
        "CoreDevice.invocationIdentifier"
      ≠ xLookup (invokeEnvelope natUuid "feature" none 1)
        "CoreDevice.invocationIdentifier" :=
  (invoke_identifiers_fresh_per_call natUuid natUuid_injective
    "feature" "feature" none none 0 1 (by decide)).1

/-- C1 counterexample: with a uuid source whose draws are pairwise
distinct, the first and second invoke calls of one client already
carry different CoreDevice.deviceIdentifier fields, refuting the
stated invariant that every envelope of a client session carries the
same device identifier. -/
theorem device_identifier_not_stable_cex :
    xLookup (invokeEnvelope natUuid "feature" none 0)
        "CoreDevice.deviceIdentifier" = some (.string "")
    ∧ xLookup (invokeEnvelope natUuid "feature" none 1)
        "CoreDevice.deviceIdentifier" = some (.string "aa")
    ∧ some (XPCObject.string "") ≠ some (XPCObject.string "aa") :=
  ⟨rfl, rfl, by simp⟩

/-- C2 (amended): start_service returns the boolean EnableServiceSSL
field as the tls flag, false when the field is absent or not a
boolean; a Port field that is an integer in the unsigned 64-bit range
succeeds with the port truncated to its low 16 bits (the Rust
`as u16` cast), while a Port that is absent, not an integer, negative,
or beyond the unsigned 64-bit range yields an UnexpectedResponse. -/
theorem start_service_reply_decoding (response : PDict) :
    (∀ b, pLookup response "EnableServiceSSL" = some (.boolean b) →
      sslFlag response = b)
    ∧ ((∀ b, pLookup response "EnableServiceSSL" ≠ some (.boolean b)) →
      sslFlag response = false)
    ∧ (∀ n : Int, pLookup response "Port" = some (.integer n) →
        (0 ≤ n ∧ n < 2 ^ 64 →
          start_service_decode response
            = .ok (n.toNat % 2 ^ 16, sslFlag response))
        ∧ (n < 0 ∨ 2 ^ 64 ≤ n →
          start_service_decode response = .error .UnexpectedResponse))
    ∧ ((∀ n : Int, pLookup response "Port" ≠ some (.integer n)) →
      start_service_decode response = .error .UnexpectedResponse) := by
  refine ⟨?_, ?_, ?_, ?_⟩
  · intro b hb
    simp [sslFlag, hb]
  · intro hb
    unfold sslFlag
    cases h : pLookup response "EnableServiceSSL" with
    | none => rfl
    | some v => cases v <;> first | rfl | exact absurd h (hb _)
  · intro n hn
    refine ⟨fun hr => ?_, fun hr => ?_⟩
    · have hsome : intAsUnsigned n = some n.toNat := by
        unfold intAsUnsigned
        rw [if_pos hr]
      simp [start_service_decode, hn, hsome]
    · have hnone : intAsUnsigned n = none := by
        unfold intAsUnsigned
        rw [if_neg]
        rintro ⟨h0, h1⟩
        rcases hr with hr | hr <;> omega
      simp [start_service_decode, hn, hnone]
  · intro hp
    unfold start_service_decode
    cases h : pLookup response "Port" with
    | none => rfl
    | some v => cases v <;> first | rfl | exact absurd h (hp _)

/-- C2 witness: a reply with Port 1234 and EnableServiceSSL true
succeeds with port 1234 and the tls flag set. -/
theorem start_service_reply_decoding_witness :
    start_service_decode
      [("Port", PValue.integer 1234), ("EnableServiceSSL", PValue.boolean true)]
      = .ok (1234, true) := by
  have h := ((start_service_reply_decoding
    [("Port", PValue.integer 1234),
     ("EnableServiceSSL", PValue.boolean true)]).2.2.1 1234 rfl).1
  exact h (by norm_num)

/-- C2 counterexample: a Port of 70000 does not fit 16 bits, yet
start_service succeeds with the truncated port 4464 (70000 mod 2 ^ 16)
instead of returning an UnexpectedResponse error. -/
theorem start_service_large_port_truncates_cex :
    start_service_decode [("Port", PValue.integer 70000)] = .ok (4464, false)
    ∧ start_service_decode [("Port", PValue.integer 70000)]
        ≠ .error .UnexpectedResponse := by
  refine ⟨rfl, ?_⟩
  rw [show start_service_decode [("Port", PValue.integer 70000)]
    = .ok (4464, false) from rfl]
  simp

/-- C3 (amended): profile-management status decoding. The framed/RSD
install reads Status through as_signed with 0 as the success value and
any other signed 64-bit integer a MisagentFailure; the framed/RSD
remove and both implicit-channel operations read Status through
as_unsigned with 1 as the success value and any other unsigned 64-bit
integer a MisagentFailure; an integer outside the respective
representable range, and a missing or non-integer Status, are an
UnexpectedResponse. -/
theorem misagent_status_decoding (res : PDict) :
    (∀ n : Int, pLookup res "Status" = some (.integer n) →
      (-(2 ^ 63) ≤ n ∧ n < 2 ^ 63 →
        misagent_rsd_install_decode res
          = if n = 0 then .ok () else .error .MisagentFailure)
      ∧ (n < -(2 ^ 63) ∨ 2 ^ 63 ≤ n →
        misagent_rsd_install_decode res = .error .UnexpectedResponse)
      ∧ (0 ≤ n ∧ n < 2 ^ 64 →
        misagent_rsd_remove_decode res
          = (if n = 1 then .ok () else .error .MisagentFailure)
        ∧ misagent_install_decode res
          = (if n = 1 then .ok () else .error .MisagentFailure)
        ∧ misagent_remove_decode res
          = (if n = 1 then .ok () else .error .MisagentFailure))
      ∧ (n < 0 ∨ 2 ^ 64 ≤ n →
        misagent_rsd_remove_decode res = .error .UnexpectedResponse
        ∧ misagent_install_decode res = .error .UnexpectedResponse
        ∧ misagent_remove_decode res = .error .UnexpectedResponse))
    ∧ ((∀ n : Int, pLookup res "Status" ≠ some (.integer n)) →
      misagent_rsd_install_decode res = .error .UnexpectedResponse
      ∧ misagent_rsd_remove_decode res = .error .UnexpectedResponse
      ∧ misagent_install_decode res = .error .UnexpectedResponse
      ∧ misagent_remove_decode res = .error .UnexpectedResponse) := by
  have hu : misagent_install_decode = misagent_rsd_remove_decode := rfl
  have hu2 : misagent_remove_decode = misagent_rsd_remove_decode := rfl
  refine ⟨fun n hn => ⟨fun hr => ?_, fun hr => ?_, fun hr => ?_, fun hr => ?_⟩,
    fun hp => ?_⟩
  · have hsig : intAsSigned n = some n := by
      unfold intAsSigned
      rw [if_pos hr]
    simp [misagent_rsd_install_decode, hn, hsig]
  · have hnone : intAsSigned n = none := by
      unfold intAsSigned
      rw [if_neg]
      rintro ⟨h0, h1⟩
      rcases hr with hr | hr <;> omega
    simp [misagent_rsd_install_decode, hn, hnone]
  · have ht : (n.toNat = 1) = (n = 1) := by
      apply propext
      constructor <;> intro <;> omega
    have hsome : intAsUnsigned n = some n.toNat := by
      unfold intAsUnsigned
      rw [if_pos hr]
    rw [hu, hu2]
    refine ⟨?_, ?_, ?_⟩ <;>
      simp [misagent_rsd_remove_decode, hn, hsome, ht]
  · have hnone : intAsUnsigned n = none := by
      unfold intAsUnsigned
      rw [if_neg]
      rintro ⟨h0, h1⟩
      rcases hr with hr | hr <;> omega
    rw [hu, hu2]
    refine ⟨?_, ?_, ?_⟩ <;> simp [misagent_rsd_remove_decode, hn, hnone]
  · rw [hu, hu2]
    have h1 : misagent_rsd_install_decode res = .error .UnexpectedResponse := by
      unfold misagent_rsd_install_decode
      cases h : pLookup res "Status" with
      | none => rfl
      | some v => cases v <;> first | rfl | exact absurd h (hp _)
    have h2 : misagent_rsd_remove_decode res = .error .UnexpectedResponse := by
      unfold misagent_rsd_remove_decode
      cases h : pLookup res "Status" with
      | none => rfl
      | some v => cases v <;> first | rfl | exact absurd h (hp _)
    exact ⟨h1, h2, h2, h2⟩

/-- C3 witness: an implicit-channel install reply with Status 1
succeeds. -/
theorem misagent_status_decoding_witness :
    misagent_install_decode [("Status", PValue.integer 1)] = .ok () := by
  have h := (((misagent_status_decoding
    [("Status", PValue.integer 1)]).1 1 rfl).2.2.1 (by norm_num)).2.1
  simpa using h

/-- C3 counterexample: the framed/RSD remove treats Status 0 — the
claimed RSD success value — as a MisagentFailure and Status 1 as
success, while the RSD install does treat 0 as success: the claim
that the RSD variant succeeds exactly on 0 for both install and
remove is false on remove. -/
theorem misagent_rsd_remove_success_value_cex :
    misagent_rsd_remove_decode [("Status", PValue.integer 0)]
      = .error .MisagentFailure
    ∧ misagent_rsd_remove_decode [("Status", PValue.integer 1)] = .ok ()
    ∧ misagent_rsd_install_decode [("Status", PValue.integer 0)] = .ok () :=
  ⟨rfl, rfl, rfl⟩

/-- C4 (amended): the watch_completion loop behaves as a state
machine: a message whose ErrorDescription is a string e immediately
yields the operation-failure error carrying e and consumes no further
messages; otherwise the status label is CurrentOperation, else
StatusDescription, else Phase, else the literal "Installing"; a
message whose PercentComplete decodes as an unsigned integer p prints
the label with p and invokes the caller-supplied progress sink exactly
once with p and the caller-supplied state (the label is printed, not
passed to the sink); a message whose Status equals "Complete" returns
success with no sink invocation after completion; any other Status
value is ignored and the loop keeps waiting. -/
theorem watch_completion_state_machine (σ : Type) (state : σ)
    (m : PDict) (rest : List PDict) :
    (∀ e, (pLookup m "ErrorDescription").bind PValue.asString = some e →
      watch_completion state (m :: rest)
        = ([], .error (.InstallationProxyOperationFailed e)))
    ∧ (∀ s, (pLookup m "CurrentOperation").bind PValue.asString = some s →
      statusLabel m = s)
    ∧ ((pLookup m "CurrentOperation").bind PValue.asString = none →
      ∀ s, (pLookup m "StatusDescription").bind PValue.asString = some s →
      statusLabel m = s)
    ∧ ((pLookup m "CurrentOperation").bind PValue.asString = none →
      (pLookup m "StatusDescription").bind PValue.asString = none →
      ∀ s, (pLookup m "Phase").bind PValue.asString = some s →
      statusLabel m = s)
    ∧ ((pLookup m "CurrentOperation").bind PValue.asString = none →
      (pLookup m "StatusDescription").bind PValue.asString = none →
      (pLookup m "Phase").bind PValue.asString = none →
      statusLabel m = "Installing")
    ∧ (∀ p, (pLookup m "PercentComplete").bind PValue.asUnsignedInteger
        = some p →
      watchEvents m state = [.printed (statusLabel m) p, .callbackCall p state])
    ∧ ((pLookup m "PercentComplete").bind PValue.asUnsignedInteger = none →
      watchEvents m state = [])
    ∧ ((pLookup m "ErrorDescription").bind PValue.asString = none →
      statusOf m = some "Complete" →
      watch_completion state (m :: rest) = (watchEvents m state, .ok ()))
    ∧ ((pLookup m "ErrorDescription").bind PValue.asString = none →
      statusOf m ≠ some "Complete" →
      watch_completion state (m :: rest)
        = (watchEvents m state ++ (watch_completion state rest).1,
           (watch_completion state rest).2)) := by
  refine ⟨fun e he => ?_, fun s hs => ?_, fun h1 s hs => ?_,
    fun h1 h2 s hs => ?_, fun h1 h2 h3 => ?_, fun p hp => ?_, fun hp => ?_,
    fun he hs => ?_, fun he hs => ?_⟩
  · simp [watch_completion, he]
  · simp [statusLabel, hs]
  · simp [statusLabel, h1, hs]
  · simp [statusLabel, h1, h2, hs]
  · simp [statusLabel, h1, h2, h3]
  · simp [watchEvents, hp]
  · simp [watchEvents, hp]
  · have hs2 : (pLookup m "Status").bind PValue.asString = some "Complete" := hs
    simp [watch_completion, he, hs2]
  · have hs2 : (pLookup m "Status").bind PValue.asString ≠ some "Complete" := hs
    cases h : (pLookup m "Status").bind PValue.asString with
    | none => simp [watch_completion, he, h]
    | some c =>
        have hc : c ≠ "Complete" := fun hcc => hs2 (by rw [h, hcc])
        simp [watch_completion, he, h, hc]

/-- C4 witness: a lone Complete message ends the loop successfully
with no events. -/
theorem watch_completion_state_machine_witness :
    watch_completion 0 [[("Status", PValue.string "Complete")]]
      = ([], Except.ok ()) := by
  have h := (watch_completion_state_machine Nat 0
    [("Status", PValue.string "Complete")] []).2.2.2.2.2.2.2.1 rfl rfl
  exact h

/-- C4 counterexample: on a message carrying PercentComplete 5 and
CurrentOperation "Verifying", with caller state "state0", the sink is
invoked with the percent and the caller state; no sink invocation
carrying the label "Verifying" occurs, refuting the stated sink
arguments (p, label). -/
theorem watch_sink_receives_state_not_label_cex :
    (watch_completion "state0"
      [[("PercentComplete", PValue.integer 5),
        ("CurrentOperation", PValue.string "Verifying"),
        ("Status", PValue.string "Complete")]]).1
      = [.printed "Verifying" 5, .callbackCall 5 "state0"]
    ∧ WatchEvent.callbackCall 5 "Verifying"
        ∉ (watch_completion "state0"
          [[("PercentComplete", PValue.integer 5),
            ("CurrentOperation", PValue.string "Verifying"),
            ("Status", PValue.string "Complete")]]).1
    ∧ (watch_completion "state0"
        [[("PercentComplete", PValue.integer 5),
          ("CurrentOperation", PValue.string "Verifying"),
          ("Status", PValue.string "Complete")]]).2 = .ok () :=
  ⟨rfl, by decide, rfl⟩

/-- C6: start_session returns an UnexpectedResponse error whenever the
reply's EnableSessionSSL field is absent, not a boolean, or boolean
false, and in every such case the TLS upgrade routine is never
invoked; when the field is boolean true the in-place TLS upgrade is
performed with the pairing record. -/
theorem start_session_requires_ssl_true (label : String)
    (pf : PairingIdentity) (response : PDict) :
    (pLookup response "EnableSessionSSL" ≠ some (.boolean true) →
      (lockdown_start_session true label pf response).2
        = .error .UnexpectedResponse
      ∧ ∀ q, LockdownEvent.tlsUpgrade q
          ∉ (lockdown_start_session true label pf response).1)
    ∧ (pLookup response "EnableSessionSSL" = some (.boolean true) →
      (lockdown_start_session true label pf response).2 = .ok ()
      ∧ LockdownEvent.tlsUpgrade pf
          ∈ (lockdown_start_session true label pf response).1) := by
  constructor
  · intro hne
    have hres : lockdown_start_session true label pf response
        = ([.sentPlist
            [("Label", .string label),
             ("Request", .string "StartSession"),
             ("HostID", .string pf.host_id),
             ("SystemBUID", .string pf.system_buid)]],
           .error .UnexpectedResponse) := by
      unfold lockdown_start_session
      cases h : pLookup response "EnableSessionSSL" with
      | none => rfl
      | some v =>
          cases v with
          | boolean b =>
              cases b with
              | false => rfl
              | true => exact absurd h hne
          | integer n => rfl
          | string s => rfl
          | data bytes => rfl
          | array xs => rfl
          | dict entries => rfl
    rw [hres]
    exact ⟨rfl, fun q => by simp⟩
  · intro h
    unfold lockdown_start_session
    rw [h]
    exact ⟨rfl, by simp⟩

/-- C6 witness: a reply with EnableSessionSSL true succeeds and the
TLS upgrade is invoked with the pairing record. -/
theorem start_session_requires_ssl_true_witness :
    (lockdown_start_session true "l" ⟨"h", "s"⟩
      [("EnableSessionSSL", PValue.boolean true)]).2 = .ok ()
    ∧ LockdownEvent.tlsUpgrade ⟨"h", "s"⟩
        ∈ (lockdown_start_session true "l" ⟨"h", "s"⟩
          [("EnableSessionSSL", PValue.boolean true)]).1 :=
  (start_session_requires_ssl_true "l" ⟨"h", "s"⟩
    [("EnableSessionSSL", PValue.boolean true)]).2 rfl

theorem browseLoop_concat (last : PDict)
    (hl : (currentListOf last).isSome)
    (hc : statusOf last = some "Complete") :
    ∀ (body : List PDict) (acc : List PValue),
    (∀ x ∈ body, (currentListOf x).isSome ∧ statusOf x ≠ some "Complete") →
    browseLoop acc (body ++ [last])
      = .ok (acc ++ ((body ++ [last]).map
          (fun x => (currentListOf x).getD [])).flatten) := by
  intro body
  induction body with
  | nil =>
      intro acc _
      obtain ⟨l, hl2⟩ := Option.isSome_iff_exists.mp hl
      simp [browseLoop, hl2, hc]
  | cons x rest ih =>
      intro acc hbody
      obtain ⟨lx, hx⟩ := Option.isSome_iff_exists.mp (hbody x (by simp)).1
      have hsx := (hbody x (by simp)).2
      have hrest : ∀ y ∈ rest,
          (currentListOf y).isSome ∧ statusOf y ≠ some "Complete" :=
        fun y hy => hbody y (by simp [hy])
      cases hs : statusOf x with
      | none =>
          simp only [List.cons_append, browseLoop, hx, hs, List.append_eq]
          rw [ih _ hrest]
          simp [hx]
      | some c =>
          have hcne : c ≠ "Complete" := fun hcc => hsx (by rw [hs, hcc])
          simp only [List.cons_append, browseLoop, hx, hs, List.append_eq, if_neg hcne]
          rw [ih _ hrest]
          simp [hx]

/-- C8: the browse loop concatenates, in receipt order, the elements
of each message's CurrentList array; it terminates successfully when a
message's Status equals "Complete", or earlier when a message lacks a
CurrentList array, in which case it returns the values accumulated so
far as a success rather than an error. -/
theorem browse_accumulates_current_lists (acc : List PValue) (m : PDict)
    (rest : List PDict) :
    (currentListOf m = none → browseLoop acc (m :: rest) = .ok acc)
    ∧ (∀ l, currentListOf m = some l → statusOf m = some "Complete" →
        browseLoop acc (m :: rest) = .ok (acc ++ l))
    ∧ (∀ l, currentListOf m = some l → statusOf m ≠ some "Complete" →
        browseLoop acc (m :: rest) = browseLoop (acc ++ l) rest)
    ∧ (∀ (body : List PDict) (last : PDict),
        (∀ x ∈ body, (currentListOf x).isSome ∧ statusOf x ≠ some "Complete") →
        (currentListOf last).isSome → statusOf last = some "Complete" →
        browseLoop acc (body ++ [last])
          = .ok (acc ++ ((body ++ [last]).map
              (fun x => (currentListOf x).getD [])).flatten)) := by
  refine ⟨fun h => by simp [browseLoop, h],
    fun l hl hs => by simp [browseLoop, hl, hs],
    fun l hl hs => ?_,
    fun body last hbody hl hc => browseLoop_concat last hl hc body acc hbody⟩
  cases hstat : statusOf m with
  | none => simp [browseLoop, hl, hstat]
  | some c =>
      have hcne : c ≠ "Complete" := fun hcc => hs (by rw [hstat, hcc])
      simp [browseLoop, hl, hstat, hcne]

/-- C8 witness: two messages, the second marked Complete, yield the
concatenation of their CurrentList arrays. -/
theorem browse_accumulates_current_lists_witness :
    browseLoop []
      [[("CurrentList", PValue.array [PValue.string "a"])],
       [("CurrentList", PValue.array [PValue.string "b"]),
        ("Status", PValue.string "Complete")]]
      = .ok [PValue.string "a", PValue.string "b"] := by
  have h := (browse_accumulates_current_lists []
      [("CurrentList", PValue.array [PValue.string "a"])] []).2.2.2
      [[("CurrentList", PValue.array [PValue.string "a"])]]
      [("CurrentList", PValue.array [PValue.string "b"]),
       ("Status", PValue.string "Complete")]
      (by
        intro x hx
        rw [List.mem_singleton] at hx
        subst hx
        exact ⟨by decide, by decide⟩)
      (by decide) (by decide)
  exact h

/-- C9: the RSD checkin handshake sends the framed dictionary with
Label "misagent-rsd", ProtocolVersion "2" and Request "RSDCheckin",
and succeeds exactly when the first framed reply is a dictionary whose
Request field is the string "RSDCheckin" and the second is a
dictionary whose Request field is the string "StartService"; every
other shape yields an UnexpectedResponse error. -/
theorem rsd_checkin_handshake (reply1 reply2 : PValue) :
    pLookup misagentRsdCheckinRequest "Label" = some (.string "misagent-rsd")
    ∧ pLookup misagentRsdCheckinRequest "ProtocolVersion"
        = some (.string "2")
    ∧ pLookup misagentRsdCheckinRequest "Request"
        = some (.string "RSDCheckin")
    ∧ (misagent_rsd_from_stream reply1 reply2 = .ok ()
        ↔ (∃ d1, reply1 = .dict d1
            ∧ (pLookup d1 "Request").bind PValue.asString
                = some "RSDCheckin")
          ∧ (∃ d2, reply2 = .dict d2
            ∧ (pLookup d2 "Request").bind PValue.asString
                = some "StartService"))
    ∧ (misagent_rsd_from_stream reply1 reply2 = .ok ()
        ∨ misagent_rsd_from_stream reply1 reply2
            = .error .UnexpectedResponse) := by
  refine ⟨rfl, rfl, rfl, ?_, ?_⟩
  · cases reply1 with
    | dict d1 =>
        cases h1 : (pLookup d1 "Request").bind PValue.asString with
        | none => simp [misagent_rsd_from_stream, h1]
        | some r1 =>
            by_cases hr1 : r1 = "RSDCheckin"
            · subst hr1
              cases reply2 with
              | dict d2 =>
                  cases h2 : (pLookup d2 "Request").bind PValue.asString with
                  | none => simp [misagent_rsd_from_stream, h1, h2]
                  | some r2 =>
                      by_cases hr2 : r2 = "StartService"
                      · subst hr2
                        simp [misagent_rsd_from_stream, h1, h2]
                      · simp [misagent_rsd_from_stream, h1, h2, hr2]
              | boolean b => simp [misagent_rsd_from_stream, h1]
              | integer n => simp [misagent_rsd_from_stream, h1]
              | string s => simp [misagent_rsd_from_stream, h1]
              | data bytes => simp [misagent_rsd_from_stream, h1]
              | array xs => simp [misagent_rsd_from_stream, h1]
            · simp [misagent_rsd_from_stream, h1, hr1]
    | boolean b => simp [misagent_rsd_from_stream]
    | integer n => simp [misagent_rsd_from_stream]
    | string s => simp [misagent_rsd_from_stream]
    | data bytes => simp [misagent_rsd_from_stream]
    | array xs => simp [misagent_rsd_from_stream]
  · cases reply1 with
    | dict d1 =>
        cases h1 : (pLookup d1 "Request").bind PValue.asString with
        | none => exact Or.inr (by simp [misagent_rsd_from_stream, h1])
        | some r1 =>
            by_cases hr1 : r1 = "RSDCheckin"
            · subst hr1
              cases reply2 with
              | dict d2 =>
                  cases h2 : (pLookup d2 "Request").bind PValue.asString with
                  | none =>
                      exact Or.inr (by simp [misagent_rsd_from_stream, h1, h2])
                  | some r2 =>
                      by_cases hr2 : r2 = "StartService"
                      · subst hr2
                        exact Or.inl
                          (by simp [misagent_rsd_from_stream, h1, h2])
                      · exact Or.inr
                          (by simp [misagent_rsd_from_stream, h1, h2, hr2])
              | boolean b =>
                  exact Or.inr (by simp [misagent_rsd_from_stream, h1])
              | integer n =>
                  exact Or.inr (by simp [misagent_rsd_from_stream, h1])
              | string s =>
                  exact Or.inr (by simp [misagent_rsd_from_stream, h1])
              | data bytes =>
                  exact Or.inr (by simp [misagent_rsd_from_stream, h1])
              | array xs =>
                  exact Or.inr (by simp [misagent_rsd_from_stream, h1])
            · exact Or.inr (by simp [misagent_rsd_from_stream, h1, hr1])
    | boolean b => exact Or.inr rfl
    | integer n => exact Or.inr rfl
    | string s => exact Or.inr rfl
    | data bytes => exact Or.inr rfl
    | array xs => exact Or.inr rfl

theorem pairLoop_ok_cons (req record : PDict) (priv : List Nat)
    (escrow : PDict) (rest : List PairReadResult) :
    pairLoop req record priv (.ok escrow :: rest)
      = some ([.sent req], .ok
          (match (pLookup escrow "EscrowBag").bind PValue.asData with
           | some bytes =>
               pInsert (pInsert record "HostPrivateKey" (.data priv))
                 "EscrowBag" (.data bytes)
           | none => pInsert record "HostPrivateKey" (.data priv))) := by
  cases h : (pLookup escrow "EscrowBag").bind PValue.asData <;>
    simp [pairLoop, h]

theorem pairLoop_pending_cons (req record : PDict) (priv : List Nat)
    (rest : List PairReadResult) :
    pairLoop req record priv (.err .PairingDialogResponsePending :: rest)
      = (pairLoop req record priv rest).map
          (fun er => (.sent req :: .slept 1 :: er.1, er.2)) := by
  cases h : pairLoop req record priv rest with
  | none => simp [pairLoop, h]
  | some er =>
      obtain ⟨evs, r⟩ := er
      simp [pairLoop, h]

theorem pairLoop_err_cons (req record : PDict) (priv : List Nat)
    (e : IdeviceError) (rest : List PairReadResult)
    (hne : e ≠ .PairingDialogResponsePending) :
    pairLoop req record priv (.err e :: rest)
      = some ([.sent req], .error e) := by
  cases e <;> first | exact absurd rfl hne | rfl

theorem pairLoop_events_shape (req record : PDict) (priv : List Nat) :
    ∀ (replies : List PairReadResult) (evs : List PairEvent)
      (r : Except IdeviceError PDict),
    pairLoop req record priv replies = some (evs, r) →
    ∀ ev ∈ evs, ev = .sent req ∨ ev = .slept 1 := by
  intro replies
  induction replies with
  | nil =>
      intro evs r h
      simp [pairLoop] at h
  | cons head tail ih =>
      intro evs r h
      cases head with
      | ok escrow =>
          rw [pairLoop_ok_cons] at h
          injection h with h'
          injection h' with h1 h2
          subst h1
          intro ev hev
          rw [List.mem_singleton] at hev
          subst hev
          exact Or.inl rfl
      | err e =>
          by_cases hpe : e = .PairingDialogResponsePending
          · subst hpe
            rw [pairLoop_pending_cons] at h
            cases hrec : pairLoop req record priv tail with
            | none =>
                rw [hrec] at h
                exact Option.noConfusion h
            | some er =>
                obtain ⟨evs2, r2⟩ := er
                rw [hrec] at h
                simp only [Option.map] at h
                injection h with h'
                injection h' with h1 h2
                subst h1
                intro ev hev
                simp only [List.mem_cons] at hev
                rcases hev with h | h | h
                · exact Or.inl h
                · exact Or.inr h
                · exact ih evs2 r2 hrec ev h
          · rw [pairLoop_err_cons _ _ _ _ _ hpe] at h
            injection h with h'
            injection h' with h1 h2
            subst h1
            intro ev hev
            rw [List.mem_singleton] at hev
            subst hev
            exact Or.inl rfl

theorem pairLoop_no_pending (req record : PDict) (priv : List Nat) :
    ∀ (replies : List PairReadResult) (evs : List PairEvent)
      (e : IdeviceError),
    pairLoop req record priv replies = some (evs, .error e) →
    e ≠ .PairingDialogResponsePending := by
  intro replies
  induction replies with
  | nil =>
      intro evs e h
      simp [pairLoop] at h
  | cons head tail ih =>
      intro evs e h
      cases head with
      | ok escrow =>
          rw [pairLoop_ok_cons] at h
          injection h with h'
          injection h' with h1 h2
          exact Except.noConfusion h2
      | err e2 =>
          by_cases hpe : e2 = .PairingDialogResponsePending
          · subst hpe
            rw [pairLoop_pending_cons] at h
            cases hrec : pairLoop req record priv tail with
            | none =>
                rw [hrec] at h
                exact Option.noConfusion h
            | some er =>
                obtain ⟨evs2, r2⟩ := er
                rw [hrec] at h
                simp only [Option.map] at h
                injection h with h'
                injection h' with h1 h2
                exact ih evs2 e (by rw [hrec, h2])
          · rw [pairLoop_err_cons _ _ _ _ _ hpe] at h
            injection h with h'
            injection h' with h1 h2
            injection h2 with he
            exact he ▸ hpe

theorem pairLoop_replicate_pending (req record : PDict) (priv : List Nat)
    (escrow : PDict) (rest : List PairReadResult) :
    ∀ n : Nat, ∃ result,
    pairLoop req record priv
      (List.replicate n (.err .PairingDialogResponsePending)
        ++ .ok escrow :: rest)
      = some ((List.replicate n [PairEvent.sent req, .slept 1]).flatten
          ++ [.sent req], .ok result) := by
  intro n
  induction n with
  | zero =>
      simp only [List.replicate, List.nil_append, List.flatten_nil,
        pairLoop_ok_cons]
      exact ⟨_, rfl⟩
  | succ k ih =>
      obtain ⟨result, hres⟩ := ih
      refine ⟨result, ?_⟩
      simp only [List.replicate_succ, List.cons_append]
      rw [pairLoop_pending_cons, hres]
      simp [List.flatten_cons]

/-- C5: in the pair retry loop, a Pending reply never surfaces to the
caller: it triggers a fixed 1-second sleep followed by resending the
identical request, with no maximum retry count; any other error from
reading the reply is returned on its first occurrence without
resending; on success the completed pairing record contains
HostPrivateKey (the generated private key) and contains EscrowBag
exactly when the reply carries a data-typed EscrowBag field (the
assembled base record carries none). -/
theorem pair_retry_loop (req record : PDict) (priv : List Nat)
    (pub_key : List Nat) (ca : CaGenerated)
    (host_id system_buid wifi_mac : String) :
    (∀ rest, pairLoop req record priv
        (.err .PairingDialogResponsePending :: rest)
      = (pairLoop req record priv rest).map
          (fun er => (.sent req :: .slept 1 :: er.1, er.2)))
    ∧ (∀ replies evs r, pairLoop req record priv replies = some (evs, r) →
        ∀ ev ∈ evs, ev = .sent req ∨ ev = .slept 1)
    ∧ (∀ replies evs e,
        pairLoop req record priv replies = some (evs, .error e) →
        e ≠ .PairingDialogResponsePending)
    ∧ (∀ e rest, e ≠ .PairingDialogResponsePending →
        pairLoop req record priv (.err e :: rest)
          = some ([.sent req], .error e))
    ∧ (∀ n escrow rest, ∃ result,
        pairLoop req record priv
          (List.replicate n (.err .PairingDialogResponsePending)
            ++ .ok escrow :: rest)
          = some ((List.replicate n [PairEvent.sent req, .slept 1]).flatten
              ++ [.sent req], .ok result))
    ∧ (∀ escrow rest evs result, pLookup record "EscrowBag" = none →
        pairLoop req record priv (.ok escrow :: rest)
          = some (evs, .ok result) →
        pLookup result "HostPrivateKey" = some (.data priv)
        ∧ pLookup result "EscrowBag"
            = ((pLookup escrow "EscrowBag").bind PValue.asData).map
                PValue.data)
    ∧ pLookup (pairRecordBase pub_key ca host_id system_buid wifi_mac)
        "EscrowBag" = none := by
  refine ⟨fun rest => pairLoop_pending_cons req record priv rest,
    pairLoop_events_shape req record priv,
    pairLoop_no_pending req record priv,
    fun e rest hne => pairLoop_err_cons req record priv e rest hne,
    fun n escrow rest => pairLoop_replicate_pending req record priv
      escrow rest n,
    fun escrow rest evs result hnone h => ?_, rfl⟩
  rw [pairLoop_ok_cons] at h
  injection h with h'
  injection h' with h1 h2
  injection h2 with hres
  subst hres
  cases hb : (pLookup escrow "EscrowBag").bind PValue.asData with
  | none =>
      simp only [hb]
      refine ⟨pLookup_pInsert_self record "HostPrivateKey" (.data priv), ?_⟩
      rw [pLookup_pInsert_ne record "HostPrivateKey" "EscrowBag" _
        (by decide)]
      simp [hnone]
  | some b =>
      simp only [hb]
      refine ⟨?_, ?_⟩
      · rw [pLookup_pInsert_ne _ "EscrowBag" "HostPrivateKey" _ (by decide)]
        exact pLookup_pInsert_self record "HostPrivateKey" (.data priv)
      · rw [pLookup_pInsert_self]
        rfl

/-- C5 witness: a first reply that is a non-pending error aborts the
loop immediately with that error after a single send. -/
theorem pair_retry_loop_witness :
    pairLoop [("Request", PValue.string "Pair")] [] [1]
      [.err .UnexpectedResponse]
      = some ([.sent [("Request", PValue.string "Pair")]],
          .error .UnexpectedResponse) :=
  (pair_retry_loop [("Request", PValue.string "Pair")] [] [1] []
    ⟨[], [], []⟩ "h" "s" "w").2.2.2.1 .UnexpectedResponse [] (by decide)

/-- C9 witness: a conforming pair of replies passes the checkin. -/
theorem rsd_checkin_handshake_witness :
    misagent_rsd_from_stream (.dict [("Request", PValue.string "RSDCheckin")])
      (.dict [("Request", PValue.string "StartService")]) = .ok () :=
  (rsd_checkin_handshake (.dict [("Request", PValue.string "RSDCheckin")])
    (.dict [("Request", PValue.string "StartService")])).2.2.2.1.mpr
    ⟨⟨_, rfl, rfl⟩, ⟨_, rfl, rfl⟩⟩

end Idevice
